import Mathlib

/-!
Verification of the authenticated-fetch-with-token-refresh client of the
macro-tracker repository.  The function `fetchWithAuth` below is a shallow
embedding of the identical JavaScript function defined in
`src/nutrition-tracker/src/pages/EntriesPage.jsx`,
`src/nutrition-tracker/src/pages/SummariesPage.jsx` and the Dashboard page:
it reads the access credential from `localStorage`, issues the request with a
`Bearer` header, and on a 401 attempts a one-shot token refresh followed by a
single retry.  The network is modelled by an oracle giving the outcome of each
of the (at most three) `fetch` calls, and every observable action (fetches,
`localStorage` writes, `navigate("/")`) is recorded in an event trace.
-/

namespace MacroTracker

/-- headers and other string-keyed JS objects are modelled as association
lists; `objSet` is JS property assignment: overwrite in place if the key is
present (JS keeps the original insertion position), append otherwise. -/
def objSet (hs : List (String × String)) (k v : String) : List (String × String) :=
  if hs.any (fun p => p.1 = k) then
    hs.map (fun p => if p.1 = k then (k, v) else p)
  else
    hs ++ [(k, v)]

/-- object spread `\x7b ...base, ...ov \x7d`: the override entries are assigned
onto the base one at a time, later keys winning. -/
def objAssign (base ov : List (String × String)) : List (String × String) :=
  ov.foldl (fun acc p => objSet acc p.1 p.2) base

/-- value of key `k` in a JS object (first entry with that key; entries built
through `objSet` have unique keys). -/
def headerVal : List (String × String) → String → Option String
  | [], _ => none
  | p :: t, k => if p.1 = k then some p.2 else headerVal t k

/-- value a duplicate-keyed object literal ends up giving key `k`: the last
occurrence wins. -/
def lastVal : List (String × String) → String → Option String
  | [], _ => none
  | p :: t, k =>
    match lastVal t k with
    | some v => some v
    | none => if p.1 = k then some p.2 else none

/-- the credential store (`localStorage`): the `"access"` and `"refresh"`
keys, each a string or absent (`getItem` returns `null`). -/
structure Store where
  access : Option String
  refresh : Option String
deriving DecidableEq, Repr

/-- a transport response.  `access` stands for the `access` field of the
JSON-parsed body, as read by `refreshRes.json()` on the refresh path; it is
ignored for every other response. -/
structure Response where
  status : Nat
  body : String
  access : String
deriving DecidableEq, Repr

/-- `Response.ok` of the fetch API: status in the inclusive range 200-299. -/
def Response.ok (r : Response) : Bool :=
  decide (200 ≤ r.status ∧ r.status ≤ 299)

/-- outcome of one `fetch` call: a response, or a transport-level rejection
of the promise (DNS/connection failure). -/
inductive FetchResult
  | resp (r : Response)
  | reject
deriving DecidableEq, Repr

/-- the network oracle: outcomes of the initial request, of the refresh call
and of the retried request, in the order `fetchWithAuth` would issue them. -/
structure Oracle where
  init : FetchResult
  refr : FetchResult
  retry : FetchResult
deriving DecidableEq, Repr

/-- the caller-supplied `options` object (`\x7b\x7d` by default): optional
method and body, and a headers object. -/
structure FetchOptions where
  method : Option String
  headers : List (String × String)
  body : Option String
deriving DecidableEq, Repr

/-- a concrete outbound HTTP request as handed to `fetch`. -/
structure Request where
  url : String
  method : Option String
  headers : List (String × String)
  body : Option String
deriving DecidableEq, Repr

/-- an observable action of the client: a `fetch` call, a
`localStorage.setItem`, a `localStorage.removeItem`, or `navigate("/")`. -/
inductive Event
  | fetched (req : Request)
  | setItem (key val : String)
  | removeItem (key : String)
  | navigated
deriving DecidableEq, Repr

/-- result of awaiting `fetchWithAuth`: the promise resolves with a response
or rejects (an uncaught transport failure propagates to the caller). -/
inductive CallResult
  | ok (r : Response)
  | thrown
deriving DecidableEq, Repr

/-- final state of one call: resolved/rejected value, the store after the
call, and the trace of observable events in order. -/
structure Outcome where
  result : CallResult
  store : Store
  events : List Event
deriving DecidableEq, Repr

/-- template-literal interpolation of `getItem`'s result: `null` renders as
the string `"null"` inside `Bearer ${token}`. -/
def tokenString : Option String → String
  | none => "null"
  | some t => t

/-- the headers object
`\x7b "Content-Type": "application/json", ...options.headers, Authorization: auth \x7d`
built by every authenticated fetch in the source. -/
def jsHeaders (caller : List (String × String)) (auth : String) :
    List (String × String) :=
  objSet (objAssign [("Content-Type", "application/json")] caller) "Authorization" auth

/-- the request `fetch(url, \x7b ...options, headers: ... \x7d)` issues:
caller options spread in, headers replaced by the merged headers object. -/
def mkAuthedRequest (url : String) (options : FetchOptions) (auth : String) :
    Request :=
  { url := url
    method := options.method
    headers := jsHeaders options.headers auth
    body := options.body }

/-- the token-refresh endpoint hit by the 401 branch. -/
def refreshUrl : String := "http://127.0.0.1:8000/api/token/refresh/"

/-- `JSON.stringify(\x7b refresh \x7d)`. -/
def jsonRefreshBody (refresh : String) : String :=
  "\x7b\x22refresh\x22:\x22" ++ refresh ++ "\x22\x7d"

/-- the POST request of the refresh call. -/
def refreshReq (refresh : String) : Request :=
  { url := refreshUrl
    method := some "POST"
    headers := [("Content-Type", "application/json")]
    body := some (jsonRefreshBody refresh) }

/-- shallow embedding of `fetchWithAuth` from `EntriesPage.jsx` (identical in
`SummariesPage.jsx` and the Dashboard page): read the access token, fetch with
a Bearer header; on 401 read the refresh token (falsy — absent or the empty
string, the guard is `if (!refresh)` — means navigate home and
return the 401), POST it to the refresh endpoint, and if that responds ok,
store the new access token and retry the original request once with it;
otherwise navigate home and return the original 401.  The two uncaught
`await fetch` rejections propagate as a thrown result. -/
def fetchWithAuth (store : Store) (o : Oracle) (url : String)
    (options : FetchOptions) : Outcome :=
  let token := store.access
  let req1 := mkAuthedRequest url options ("Bearer " ++ tokenString token)
  match o.init with
  | FetchResult.reject => ⟨CallResult.thrown, store, [Event.fetched req1]⟩
  | FetchResult.resp res =>
    if res.status = 401 then
      match store.refresh with
      | none =>
        ⟨CallResult.ok res, store, [Event.fetched req1, Event.navigated]⟩
      | some refresh =>
        if refresh = "" then
          ⟨CallResult.ok res, store, [Event.fetched req1, Event.navigated]⟩
        else
        match o.refr with
        | FetchResult.reject =>
          ⟨CallResult.thrown, store,
            [Event.fetched req1, Event.fetched (refreshReq refresh)]⟩
        | FetchResult.resp refreshRes =>
          if refreshRes.ok then
            let store1 : Store := { store with access := some refreshRes.access }
            let req2 := mkAuthedRequest url options ("Bearer " ++ refreshRes.access)
            match o.retry with
            | FetchResult.reject =>
              ⟨CallResult.thrown, store1,
                [Event.fetched req1, Event.fetched (refreshReq refresh),
                 Event.setItem "access" refreshRes.access, Event.fetched req2]⟩
            | FetchResult.resp res2 =>
              ⟨CallResult.ok res2, store1,
                [Event.fetched req1, Event.fetched (refreshReq refresh),
                 Event.setItem "access" refreshRes.access, Event.fetched req2]⟩
          else
            ⟨CallResult.ok res, store,
              [Event.fetched req1, Event.fetched (refreshReq refresh),
               Event.navigated]⟩
    else
      ⟨CallResult.ok res, store, [Event.fetched req1]⟩

/-- `confirmLogout` from the Dashboard page: remove both credentials and
navigate home. -/
def confirmLogout (_store : Store) : Store × List Event :=
  (⟨none, none⟩,
    [Event.removeItem "access", Event.removeItem "refresh", Event.navigated])

/-- the request interceptor of `src/nutrition-tracker/src/api/axios.jsx`: add
the Bearer header only when a truthy access token is stored (`if (token)`),
leaving the headers untouched otherwise. -/
def axiosAuthInterceptor (access : Option String) (headers : List (String × String)) :
    List (String × String) :=
  match access with
  | some t => if t = "" then headers else objSet headers "Authorization" ("Bearer " ++ t)
  | none => headers

/-- events that are network requests. -/
def isFetch : Event → Bool
  | Event.fetched _ => true
  | _ => false

/-- events that write the credential store. -/
def isStoreWrite : Event → Bool
  | Event.setItem _ _ => true
  | Event.removeItem _ => true
  | _ => false

/-- number of `navigate("/")` invocations in a trace. -/
def navCount (es : List Event) : Nat :=
  es.countP (fun e =>
    match e with
    | Event.navigated => true
    | _ => false)

/-! helper lemmas about the JS object operations -/

/-- assigning key `k` past an entry with a different key commutes with cons. -/
theorem objSet_cons_ne (p : String × String) (t : List (String × String))
    (k v : String) (h : ¬ p.1 = k) :
    objSet (p :: t) k v = p :: objSet t k v := by
  by_cases ht : t.any (fun q => q.1 = k) <;>
    simp [objSet, List.any_cons, h, ht]

/-- assigning key `k` onto a list whose head has key `k` rewrites the head
(and every further `k` entry, matching JS objects built with duplicate keys). -/
theorem objSet_cons_eq (p : String × String) (t : List (String × String))
    (k v : String) (h : p.1 = k) :
    objSet (p :: t) k v =
      (k, v) :: t.map (fun q => if q.1 = k then (k, v) else q) := by
  simp [objSet, List.any_cons, h]

/-- rewriting the `k` entries does not change the value of another key. -/
theorem headerVal_map_ne (t : List (String × String)) (k v k' : String)
    (h : ¬ k' = k) :
    headerVal (t.map (fun q => if q.1 = k then (k, v) else q)) k' =
      headerVal t k' := by
  induction t with
  | nil => rfl
  | cons p t ih =>
    by_cases hp : p.1 = k
    · have hk : ¬ k = k' := fun hc => h hc.symm
      have hp' : ¬ p.1 = k' := by rw [hp]; exact hk
      simp [headerVal, hp, hp', hk, ih]
    · by_cases hp' : p.1 = k'
      · simp [headerVal, hp, hp', h]
      · simp [headerVal, hp, hp', ih]

/-- value lookup after a JS property assignment. -/
theorem headerVal_objSet (hs : List (String × String)) (k v k' : String) :
    headerVal (objSet hs k v) k' = if k' = k then some v else headerVal hs k' := by
  induction hs with
  | nil =>
    by_cases h : k' = k
    · simp [objSet, headerVal, h]
    · have hk : ¬ k = k' := fun hc => h hc.symm
      simp [objSet, headerVal, h, hk]
  | cons p t ih =>
    by_cases hp : p.1 = k
    · rw [objSet_cons_eq p t k v hp]
      by_cases h : k' = k
      · subst h
        simp [headerVal]
      · have hk : ¬ k = k' := fun hc => h hc.symm
        have hp' : ¬ p.1 = k' := by rw [hp]; exact hk
        simp [headerVal, hk, hp', h, headerVal_map_ne t k v k' h]
    · rw [objSet_cons_ne p t k v hp]
      by_cases hp' : p.1 = k'
      · have h : ¬ k' = k := by rw [← hp']; exact hp
        simp [headerVal, hp', h]
      · simp [headerVal, hp', ih]

/-- spreading one more entry folds into assigning it onto the base first. -/
theorem objAssign_cons (base : List (String × String)) (p : String × String)
    (t : List (String × String)) :
    objAssign base (p :: t) = objAssign (objSet base p.1 p.2) t := rfl

/-- value lookup after an object spread: the last override occurrence of the
key wins, the base value otherwise. -/
theorem headerVal_objAssign (base ov : List (String × String)) (k : String) :
    headerVal (objAssign base ov) k =
      match lastVal ov k with
      | some v => some v
      | none => headerVal base k := by
  induction ov generalizing base with
  | nil => simp [objAssign, lastVal]
  | cons p t ih =>
    rw [objAssign_cons, ih (objSet base p.1 p.2)]
    cases h : lastVal t k with
    | some v => simp [lastVal, h]
    | none =>
      simp only [lastVal, h, headerVal_objSet]
      by_cases hk : p.1 = k
      · simp [hk]
      · have hk' : ¬ k = p.1 := fun hc => hk hc.symm
        simp [hk, hk']

/-- the merged headers object always carries the client's own
`Authorization` value. -/
theorem headerVal_jsHeaders_auth (caller : List (String × String)) (auth : String) :
    headerVal (jsHeaders caller auth) "Authorization" = some auth := by
  simp [jsHeaders, headerVal_objSet]

/-- for any key other than `Authorization`, the merged headers hold the
caller's (last) value when supplied, the JSON content-type default for
`Content-Type` otherwise, nothing else. -/
theorem headerVal_jsHeaders_ne (caller : List (String × String)) (auth k : String)
    (h : ¬ k = "Authorization") :
    headerVal (jsHeaders caller auth) k =
      match lastVal caller k with
      | some v => some v
      | none => headerVal [("Content-Type", "application/json")] k := by
  simp only [jsHeaders, headerVal_objSet, h, if_false, headerVal_objAssign]

/-! branch characterizations of `fetchWithAuth` -/

/-- transport rejection of the initial request propagates. -/
theorem fetchWithAuth_eq_init_reject (store : Store) (o : Oracle) (url : String)
    (opts : FetchOptions) (h1 : o.init = FetchResult.reject) :
    fetchWithAuth store o url opts =
      ⟨CallResult.thrown, store,
        [Event.fetched (mkAuthedRequest url opts
          ("Bearer " ++ tokenString store.access))]⟩ := by
  simp [fetchWithAuth, h1]

/-- the non-401 path returns the response as is. -/
theorem fetchWithAuth_eq_non401 (store : Store) (o : Oracle) (url : String)
    (opts : FetchOptions) (res : Response) (h1 : o.init = FetchResult.resp res)
    (h2 : ¬ res.status = 401) :
    fetchWithAuth store o url opts =
      ⟨CallResult.ok res, store,
        [Event.fetched (mkAuthedRequest url opts
          ("Bearer " ++ tokenString store.access))]⟩ := by
  simp [fetchWithAuth, h1, h2]

/-- the 401 path with no stored refresh credential navigates home and
returns the 401. -/
theorem fetchWithAuth_eq_401_norefresh (store : Store) (o : Oracle) (url : String)
    (opts : FetchOptions) (res : Response) (h1 : o.init = FetchResult.resp res)
    (h2 : res.status = 401) (h3 : store.refresh = none) :
    fetchWithAuth store o url opts =
      ⟨CallResult.ok res, store,
        [Event.fetched (mkAuthedRequest url opts
           ("Bearer " ++ tokenString store.access)),
         Event.navigated]⟩ := by
  simp [fetchWithAuth, h1, h2, h3]

/-- the 401 path with an empty-string refresh credential behaves like the
absent case: the guard `if (!refresh)` treats the empty string as falsy. -/
theorem fetchWithAuth_eq_401_emptyrefresh (store : Store) (o : Oracle)
    (url : String) (opts : FetchOptions) (res : Response)
    (h1 : o.init = FetchResult.resp res)
    (h2 : res.status = 401) (h3 : store.refresh = some "") :
    fetchWithAuth store o url opts =
      ⟨CallResult.ok res, store,
        [Event.fetched (mkAuthedRequest url opts
           ("Bearer " ++ tokenString store.access)),
         Event.navigated]⟩ := by
  simp [fetchWithAuth, h1, h2, h3]

/-- transport rejection of the refresh call propagates (no catch in the
source). -/
theorem fetchWithAuth_eq_refresh_reject (store : Store) (o : Oracle) (url : String)
    (opts : FetchOptions) (res : Response) (r : String)
    (h1 : o.init = FetchResult.resp res) (h2 : res.status = 401)
    (h3 : store.refresh = some r) (hr : ¬ r = "")
    (h4 : o.refr = FetchResult.reject) :
    fetchWithAuth store o url opts =
      ⟨CallResult.thrown, store,
        [Event.fetched (mkAuthedRequest url opts
           ("Bearer " ++ tokenString store.access)),
         Event.fetched (refreshReq r)]⟩ := by
  simp [fetchWithAuth, h1, h2, h3, hr, h4]

/-- the 401 path whose refresh call answers non-ok navigates home and
returns the original 401. -/
theorem fetchWithAuth_eq_refresh_nonok (store : Store) (o : Oracle) (url : String)
    (opts : FetchOptions) (res rr : Response) (r : String)
    (h1 : o.init = FetchResult.resp res) (h2 : res.status = 401)
    (h3 : store.refresh = some r) (hr : ¬ r = "")
    (h4 : o.refr = FetchResult.resp rr) (h5 : rr.ok = false) :
    fetchWithAuth store o url opts =
      ⟨CallResult.ok res, store,
        [Event.fetched (mkAuthedRequest url opts
           ("Bearer " ++ tokenString store.access)),
         Event.fetched (refreshReq r),
         Event.navigated]⟩ := by
  simp [fetchWithAuth, h1, h2, h3, hr, h4, h5]

/-- the successful refresh path stores the new access token and retries the
original request with it, returning the retried response. -/
theorem fetchWithAuth_eq_refresh_ok (store : Store) (o : Oracle) (url : String)
    (opts : FetchOptions) (res rr res2 : Response) (r : String)
    (h1 : o.init = FetchResult.resp res) (h2 : res.status = 401)
    (h3 : store.refresh = some r) (hr : ¬ r = "")
    (h4 : o.refr = FetchResult.resp rr)
    (h5 : rr.ok = true) (h6 : o.retry = FetchResult.resp res2) :
    fetchWithAuth store o url opts =
      ⟨CallResult.ok res2, { store with access := some rr.access },
        [Event.fetched (mkAuthedRequest url opts
           ("Bearer " ++ tokenString store.access)),
         Event.fetched (refreshReq r),
         Event.setItem "access" rr.access,
         Event.fetched (mkAuthedRequest url opts ("Bearer " ++ rr.access))]⟩ := by
  simp [fetchWithAuth, h1, h2, h3, hr, h4, h5, h6]

/-- the successful refresh path still stores the new token when the retried
request rejects at the transport level, and the rejection propagates. -/
theorem fetchWithAuth_eq_retry_reject (store : Store) (o : Oracle) (url : String)
    (opts : FetchOptions) (res rr : Response) (r : String)
    (h1 : o.init = FetchResult.resp res) (h2 : res.status = 401)
    (h3 : store.refresh = some r) (hr : ¬ r = "")
    (h4 : o.refr = FetchResult.resp rr)
    (h5 : rr.ok = true) (h6 : o.retry = FetchResult.reject) :
    fetchWithAuth store o url opts =
      ⟨CallResult.thrown, { store with access := some rr.access },
        [Event.fetched (mkAuthedRequest url opts
           ("Bearer " ++ tokenString store.access)),
         Event.fetched (refreshReq r),
         Event.setItem "access" rr.access,
         Event.fetched (mkAuthedRequest url opts ("Bearer " ++ rr.access))]⟩ := by
  simp [fetchWithAuth, h1, h2, h3, hr, h4, h5, h6]

/-- every call falls in exactly one of the seven control-flow branches of the
source; each disjunct records the oracle conditions and the full outcome. -/
theorem fetchWithAuth_branches (store : Store) (o : Oracle) (url : String)
    (opts : FetchOptions) :
    (o.init = FetchResult.reject ∧
      fetchWithAuth store o url opts =
        ⟨CallResult.thrown, store,
          [Event.fetched (mkAuthedRequest url opts
            ("Bearer " ++ tokenString store.access))]⟩) ∨
    (∃ res, o.init = FetchResult.resp res ∧ ¬ res.status = 401 ∧
      fetchWithAuth store o url opts =
        ⟨CallResult.ok res, store,
          [Event.fetched (mkAuthedRequest url opts
            ("Bearer " ++ tokenString store.access))]⟩) ∨
    (∃ res, o.init = FetchResult.resp res ∧ res.status = 401 ∧
      (store.refresh = none ∨ store.refresh = some "") ∧
      fetchWithAuth store o url opts =
        ⟨CallResult.ok res, store,
          [Event.fetched (mkAuthedRequest url opts
             ("Bearer " ++ tokenString store.access)),
           Event.navigated]⟩) ∨
    (∃ res r, o.init = FetchResult.resp res ∧ res.status = 401 ∧
      store.refresh = some r ∧ ¬ r = "" ∧ o.refr = FetchResult.reject ∧
      fetchWithAuth store o url opts =
        ⟨CallResult.thrown, store,
          [Event.fetched (mkAuthedRequest url opts
             ("Bearer " ++ tokenString store.access)),
           Event.fetched (refreshReq r)]⟩) ∨
    (∃ res r rr, o.init = FetchResult.resp res ∧ res.status = 401 ∧
      store.refresh = some r ∧ ¬ r = "" ∧ o.refr = FetchResult.resp rr ∧ rr.ok = false ∧
      fetchWithAuth store o url opts =
        ⟨CallResult.ok res, store,
          [Event.fetched (mkAuthedRequest url opts
             ("Bearer " ++ tokenString store.access)),
           Event.fetched (refreshReq r),
           Event.navigated]⟩) ∨
    (∃ res r rr res2, o.init = FetchResult.resp res ∧ res.status = 401 ∧
      store.refresh = some r ∧ ¬ r = "" ∧ o.refr = FetchResult.resp rr ∧ rr.ok = true ∧
      o.retry = FetchResult.resp res2 ∧
      fetchWithAuth store o url opts =
        ⟨CallResult.ok res2, { store with access := some rr.access },
          [Event.fetched (mkAuthedRequest url opts
             ("Bearer " ++ tokenString store.access)),
           Event.fetched (refreshReq r),
           Event.setItem "access" rr.access,
           Event.fetched (mkAuthedRequest url opts ("Bearer " ++ rr.access))]⟩) ∨
    (∃ res r rr, o.init = FetchResult.resp res ∧ res.status = 401 ∧
      store.refresh = some r ∧ ¬ r = "" ∧ o.refr = FetchResult.resp rr ∧ rr.ok = true ∧
      o.retry = FetchResult.reject ∧
      fetchWithAuth store o url opts =
        ⟨CallResult.thrown, { store with access := some rr.access },
          [Event.fetched (mkAuthedRequest url opts
             ("Bearer " ++ tokenString store.access)),
           Event.fetched (refreshReq r),
           Event.setItem "access" rr.access,
           Event.fetched (mkAuthedRequest url opts ("Bearer " ++ rr.access))]⟩) := by
  obtain ⟨acc, rfr⟩ := store
  cases h1 : o.init with
  | reject =>
    exact Or.inl ⟨rfl, fetchWithAuth_eq_init_reject ⟨acc, rfr⟩ o url opts h1⟩
  | resp res =>
    by_cases h2 : res.status = 401
    · cases rfr with
      | none =>
        exact Or.inr (Or.inr (Or.inl
          ⟨res, rfl, h2, Or.inl rfl,
           fetchWithAuth_eq_401_norefresh ⟨acc, none⟩ o url opts res h1 h2 rfl⟩))
      | some r =>
        by_cases hr : r = ""
        · subst hr
          exact Or.inr (Or.inr (Or.inl
            ⟨res, rfl, h2, Or.inr rfl,
             fetchWithAuth_eq_401_emptyrefresh ⟨acc, some ""⟩ o url opts res h1 h2 rfl⟩))
        · cases h4 : o.refr with
          | reject =>
            exact Or.inr (Or.inr (Or.inr (Or.inl
              ⟨res, r, rfl, h2, rfl, hr, rfl,
               fetchWithAuth_eq_refresh_reject ⟨acc, some r⟩ o url opts res r h1 h2 rfl hr h4⟩)))
          | resp rr =>
            cases h5 : rr.ok with
            | false =>
              exact Or.inr (Or.inr (Or.inr (Or.inr (Or.inl
                ⟨res, r, rr, rfl, h2, rfl, hr, rfl, h5,
                 fetchWithAuth_eq_refresh_nonok ⟨acc, some r⟩ o url opts res rr r h1 h2 rfl hr h4 h5⟩))))
            | true =>
              cases h6 : o.retry with
              | resp res2 =>
                exact Or.inr (Or.inr (Or.inr (Or.inr (Or.inr (Or.inl
                  ⟨res, r, rr, res2, rfl, h2, rfl, hr, rfl, h5, rfl,
                   fetchWithAuth_eq_refresh_ok ⟨acc, some r⟩ o url opts res rr res2 r h1 h2 rfl hr h4 h5 h6⟩)))))
              | reject =>
                exact Or.inr (Or.inr (Or.inr (Or.inr (Or.inr (Or.inr
                  ⟨res, r, rr, rfl, h2, rfl, hr, rfl, h5, rfl,
                   fetchWithAuth_eq_retry_reject ⟨acc, some r⟩ o url opts res rr r h1 h2 rfl hr h4 h5 h6⟩)))))
    · exact Or.inr (Or.inl
        ⟨res, rfl, h2, fetchWithAuth_eq_non401 ⟨acc, rfr⟩ o url opts res h1 h2⟩)

/-! claim theorems -/

/-- C1: when the initial response has a status other than 401, `fetchWithAuth`
returns that response unchanged, leaves the credential store untouched, and
performs no store write at all (no `setItem`, no `removeItem`). -/
theorem fetchWithAuth_non401_passthrough (store : Store) (o : Oracle)
    (url : String) (opts : FetchOptions) (res : Response)
    (h1 : o.init = FetchResult.resp res) (h2 : ¬ res.status = 401) :
    (fetchWithAuth store o url opts).result = CallResult.ok res ∧
    (fetchWithAuth store o url opts).store = store ∧
    (fetchWithAuth store o url opts).events.countP isStoreWrite = 0 := by
  rw [fetchWithAuth_eq_non401 store o url opts res h1 h2]
  refine ⟨rfl, rfl, ?_⟩
  simp [isStoreWrite, List.countP_cons, List.countP_nil]

/-- instantiation of the non-401 pass-through theorem at a concrete call. -/
theorem fetchWithAuth_non401_passthrough_witness :
    (Oracle.mk (FetchResult.resp ⟨200, "payload", "x"⟩) FetchResult.reject
        FetchResult.reject).init = FetchResult.resp ⟨200, "payload", "x"⟩ ∧
    ¬ (Response.mk 200 "payload" "x").status = 401 ∧
    ((fetchWithAuth ⟨some "tok", some "ref"⟩
        ⟨FetchResult.resp ⟨200, "payload", "x"⟩, FetchResult.reject, FetchResult.reject⟩
        "https://api/entries" ⟨none, [], none⟩).result
        = CallResult.ok ⟨200, "payload", "x"⟩ ∧
      (fetchWithAuth ⟨some "tok", some "ref"⟩
        ⟨FetchResult.resp ⟨200, "payload", "x"⟩, FetchResult.reject, FetchResult.reject⟩
        "https://api/entries" ⟨none, [], none⟩).store = ⟨some "tok", some "ref"⟩ ∧
      (fetchWithAuth ⟨some "tok", some "ref"⟩
        ⟨FetchResult.resp ⟨200, "payload", "x"⟩, FetchResult.reject, FetchResult.reject⟩
        "https://api/entries" ⟨none, [], none⟩).events.countP isStoreWrite = 0) :=
  ⟨rfl, by decide,
   fetchWithAuth_non401_passthrough ⟨some "tok", some "ref"⟩
     ⟨FetchResult.resp ⟨200, "payload", "x"⟩, FetchResult.reject, FetchResult.reject⟩
     "https://api/entries" ⟨none, [], none⟩ ⟨200, "payload", "x"⟩ rfl (by decide)⟩

/-- C2: on a 401 with a stored refresh credential and a 2xx refresh response
carrying a new access token, the client performs exactly the trace
initial-fetch, refresh-fetch, store of the new token under `"access"`,
single retry; the retry carries `Authorization: Bearer <new access>`
taken from the refresh response, and the retried response is returned
whatever its status. -/
theorem fetchWithAuth_refresh_success (store : Store) (o : Oracle)
    (url : String) (opts : FetchOptions) (res rr res2 : Response) (r : String)
    (h1 : o.init = FetchResult.resp res) (h2 : res.status = 401)
    (h3 : store.refresh = some r) (hr : ¬ r = "")
    (h4 : o.refr = FetchResult.resp rr)
    (h5 : rr.ok = true) (h6 : o.retry = FetchResult.resp res2) :
    (fetchWithAuth store o url opts).result = CallResult.ok res2 ∧
    (fetchWithAuth store o url opts).store.access = some rr.access ∧
    (fetchWithAuth store o url opts).events =
      [Event.fetched (mkAuthedRequest url opts
         ("Bearer " ++ tokenString store.access)),
       Event.fetched (refreshReq r),
       Event.setItem "access" rr.access,
       Event.fetched (mkAuthedRequest url opts ("Bearer " ++ rr.access))] ∧
    headerVal (mkAuthedRequest url opts ("Bearer " ++ rr.access)).headers
      "Authorization" = some ("Bearer " ++ rr.access) := by
  rw [fetchWithAuth_eq_refresh_ok store o url opts res rr res2 r h1 h2 h3 hr h4 h5 h6]
  exact ⟨rfl, rfl, rfl, by simp [mkAuthedRequest, headerVal_jsHeaders_auth]⟩

/-- instantiation of the refresh-success theorem at the scenario of the spec:
old access token, refresh `"r1"` answered with access `"new"`, retry
answering 200. -/
theorem fetchWithAuth_refresh_success_witness :
    (Oracle.mk (FetchResult.resp ⟨401, "", ""⟩) (FetchResult.resp ⟨200, "", "new"⟩)
        (FetchResult.resp ⟨200, "entry", ""⟩)).init = FetchResult.resp ⟨401, "", ""⟩ ∧
    (Response.mk 401 "" "").status = 401 ∧
    (Store.mk (some "old") (some "r1")).refresh = some "r1" ∧
    ¬ "r1" = "" ∧
    (Response.mk 200 "" "new").ok = true ∧
    ((fetchWithAuth ⟨some "old", some "r1"⟩
        ⟨FetchResult.resp ⟨401, "", ""⟩, FetchResult.resp ⟨200, "", "new"⟩,
         FetchResult.resp ⟨200, "entry", ""⟩⟩
        "https://api/entries" ⟨none, [], none⟩).result
        = CallResult.ok ⟨200, "entry", ""⟩ ∧
      (fetchWithAuth ⟨some "old", some "r1"⟩
        ⟨FetchResult.resp ⟨401, "", ""⟩, FetchResult.resp ⟨200, "", "new"⟩,
         FetchResult.resp ⟨200, "entry", ""⟩⟩
        "https://api/entries" ⟨none, [], none⟩).store.access = some "new" ∧
      (fetchWithAuth ⟨some "old", some "r1"⟩
        ⟨FetchResult.resp ⟨401, "", ""⟩, FetchResult.resp ⟨200, "", "new"⟩,
         FetchResult.resp ⟨200, "entry", ""⟩⟩
        "https://api/entries" ⟨none, [], none⟩).events =
        [Event.fetched (mkAuthedRequest "https://api/entries" ⟨none, [], none⟩
           ("Bearer " ++ tokenString (some "old"))),
         Event.fetched (refreshReq "r1"),
         Event.setItem "access" "new",
         Event.fetched (mkAuthedRequest "https://api/entries" ⟨none, [], none⟩
           ("Bearer " ++ "new"))] ∧
      headerVal (mkAuthedRequest "https://api/entries" ⟨none, [], none⟩
        ("Bearer " ++ "new")).headers "Authorization" = some ("Bearer " ++ "new")) :=
  ⟨rfl, rfl, rfl, by decide, by decide,
   fetchWithAuth_refresh_success ⟨some "old", some "r1"⟩
     ⟨FetchResult.resp ⟨401, "", ""⟩, FetchResult.resp ⟨200, "", "new"⟩,
      FetchResult.resp ⟨200, "entry", ""⟩⟩
     "https://api/entries" ⟨none, [], none⟩ ⟨401, "", ""⟩ ⟨200, "", "new"⟩
     ⟨200, "entry", ""⟩ "r1" rfl rfl rfl (by decide) rfl (by decide) rfl⟩

/-- C3: on a 401 with no stored refresh credential the navigation callback
fires exactly once, no further network request is made, the original 401 is
returned and the store is unchanged. -/
theorem fetchWithAuth_401_no_refresh (store : Store) (o : Oracle)
    (url : String) (opts : FetchOptions) (res : Response)
    (h1 : o.init = FetchResult.resp res) (h2 : res.status = 401)
    (h3 : store.refresh = none) :
    (fetchWithAuth store o url opts).result = CallResult.ok res ∧
    (fetchWithAuth store o url opts).store = store ∧
    (fetchWithAuth store o url opts).events =
      [Event.fetched (mkAuthedRequest url opts
         ("Bearer " ++ tokenString store.access)),
       Event.navigated] ∧
    navCount (fetchWithAuth store o url opts).events = 1 ∧
    (fetchWithAuth store o url opts).events.countP isFetch = 1 := by
  rw [fetchWithAuth_eq_401_norefresh store o url opts res h1 h2 h3]
  refine ⟨rfl, rfl, rfl, ?_, ?_⟩ <;>
    simp [navCount, isFetch, List.countP_cons, List.countP_nil]

/-- instantiation of the missing-refresh theorem at a concrete call. -/
theorem fetchWithAuth_401_no_refresh_witness :
    (Oracle.mk (FetchResult.resp ⟨401, "denied", ""⟩) FetchResult.reject
        FetchResult.reject).init = FetchResult.resp ⟨401, "denied", ""⟩ ∧
    (Response.mk 401 "denied" "").status = 401 ∧
    (Store.mk (some "tok") none).refresh = none ∧
    ((fetchWithAuth ⟨some "tok", none⟩
        ⟨FetchResult.resp ⟨401, "denied", ""⟩, FetchResult.reject, FetchResult.reject⟩
        "https://api/entries" ⟨none, [], none⟩).result
        = CallResult.ok ⟨401, "denied", ""⟩ ∧
      (fetchWithAuth ⟨some "tok", none⟩
        ⟨FetchResult.resp ⟨401, "denied", ""⟩, FetchResult.reject, FetchResult.reject⟩
        "https://api/entries" ⟨none, [], none⟩).store = ⟨some "tok", none⟩ ∧
      (fetchWithAuth ⟨some "tok", none⟩
        ⟨FetchResult.resp ⟨401, "denied", ""⟩, FetchResult.reject, FetchResult.reject⟩
        "https://api/entries" ⟨none, [], none⟩).events =
        [Event.fetched (mkAuthedRequest "https://api/entries" ⟨none, [], none⟩
           ("Bearer " ++ tokenString (some "tok"))),
         Event.navigated] ∧
      navCount (fetchWithAuth ⟨some "tok", none⟩
        ⟨FetchResult.resp ⟨401, "denied", ""⟩, FetchResult.reject, FetchResult.reject⟩
        "https://api/entries" ⟨none, [], none⟩).events = 1 ∧
      (fetchWithAuth ⟨some "tok", none⟩
        ⟨FetchResult.resp ⟨401, "denied", ""⟩, FetchResult.reject, FetchResult.reject⟩
        "https://api/entries" ⟨none, [], none⟩).events.countP isFetch = 1) :=
  ⟨rfl, rfl, rfl,
   fetchWithAuth_401_no_refresh ⟨some "tok", none⟩
     ⟨FetchResult.resp ⟨401, "denied", ""⟩, FetchResult.reject, FetchResult.reject⟩
     "https://api/entries" ⟨none, [], none⟩ ⟨401, "denied", ""⟩ rfl rfl rfl⟩

/-- C4: on a 401 whose refresh call answers non-2xx, the navigation callback
fires exactly once, the store (access key included) is unchanged, and the
value returned is the original 401 response, not the refresh endpoint's
response. -/
theorem fetchWithAuth_refresh_nonok_result (store : Store) (o : Oracle)
    (url : String) (opts : FetchOptions) (res rr : Response) (r : String)
    (h1 : o.init = FetchResult.resp res) (h2 : res.status = 401)
    (h3 : store.refresh = some r) (hr : ¬ r = "")
    (h4 : o.refr = FetchResult.resp rr) (h5 : rr.ok = false) :
    (fetchWithAuth store o url opts).result = CallResult.ok res ∧
    (fetchWithAuth store o url opts).store = store ∧
    (fetchWithAuth store o url opts).events =
      [Event.fetched (mkAuthedRequest url opts
         ("Bearer " ++ tokenString store.access)),
       Event.fetched (refreshReq r),
       Event.navigated] ∧
    navCount (fetchWithAuth store o url opts).events = 1 := by
  rw [fetchWithAuth_eq_refresh_nonok store o url opts res rr r h1 h2 h3 hr h4 h5]
  refine ⟨rfl, rfl, rfl, ?_⟩
  simp [navCount, List.countP_cons, List.countP_nil]

/-- instantiation of the failed-refresh theorem: the refresh endpoint answers
400, the original 401 is returned and the access token stays `"old"`. -/
theorem fetchWithAuth_refresh_nonok_result_witness :
    (Oracle.mk (FetchResult.resp ⟨401, "denied", ""⟩)
        (FetchResult.resp ⟨400, "bad", ""⟩) FetchResult.reject).init
        = FetchResult.resp ⟨401, "denied", ""⟩ ∧
    (Response.mk 401 "denied" "").status = 401 ∧
    (Store.mk (some "old") (some "r1")).refresh = some "r1" ∧
    ¬ "r1" = "" ∧
    (Response.mk 400 "bad" "").ok = false ∧
    ((fetchWithAuth ⟨some "old", some "r1"⟩
        ⟨FetchResult.resp ⟨401, "denied", ""⟩, FetchResult.resp ⟨400, "bad", ""⟩,
         FetchResult.reject⟩
        "https://api/entries" ⟨none, [], none⟩).result
        = CallResult.ok ⟨401, "denied", ""⟩ ∧
      (fetchWithAuth ⟨some "old", some "r1"⟩
        ⟨FetchResult.resp ⟨401, "denied", ""⟩, FetchResult.resp ⟨400, "bad", ""⟩,
         FetchResult.reject⟩
        "https://api/entries" ⟨none, [], none⟩).store = ⟨some "old", some "r1"⟩ ∧
      (fetchWithAuth ⟨some "old", some "r1"⟩
        ⟨FetchResult.resp ⟨401, "denied", ""⟩, FetchResult.resp ⟨400, "bad", ""⟩,
         FetchResult.reject⟩
        "https://api/entries" ⟨none, [], none⟩).events =
        [Event.fetched (mkAuthedRequest "https://api/entries" ⟨none, [], none⟩
           ("Bearer " ++ tokenString (some "old"))),
         Event.fetched (refreshReq "r1"),
         Event.navigated] ∧
      navCount (fetchWithAuth ⟨some "old", some "r1"⟩
        ⟨FetchResult.resp ⟨401, "denied", ""⟩, FetchResult.resp ⟨400, "bad", ""⟩,
         FetchResult.reject⟩
        "https://api/entries" ⟨none, [], none⟩).events = 1) :=
  ⟨rfl, rfl, rfl, by decide, by decide,
   fetchWithAuth_refresh_nonok_result ⟨some "old", some "r1"⟩
     ⟨FetchResult.resp ⟨401, "denied", ""⟩, FetchResult.resp ⟨400, "bad", ""⟩,
      FetchResult.reject⟩
     "https://api/entries" ⟨none, [], none⟩ ⟨401, "denied", ""⟩ ⟨400, "bad", ""⟩
     "r1" rfl rfl rfl (by decide) rfl (by decide)⟩

/-- C5: every call issues at most 3 network requests (initial, refresh,
retry); and when the retried request comes back 401 again, that second 401 is
returned to the caller with no further refresh attempt and no navigation. -/
theorem fetchWithAuth_retry_bound (store : Store) (o : Oracle) (url : String)
    (opts : FetchOptions) :
    (fetchWithAuth store o url opts).events.countP isFetch ≤ 3 ∧
    (∀ res r rr res2, o.init = FetchResult.resp res → res.status = 401 →
      store.refresh = some r → ¬ r = "" → o.refr = FetchResult.resp rr →
      rr.ok = true → o.retry = FetchResult.resp res2 → res2.status = 401 →
      (fetchWithAuth store o url opts).result = CallResult.ok res2 ∧
      (fetchWithAuth store o url opts).events.countP isFetch = 3 ∧
      navCount (fetchWithAuth store o url opts).events = 0) := by
  constructor
  · rcases fetchWithAuth_branches store o url opts with
      ⟨_, he⟩ | ⟨res, _, _, he⟩ | ⟨res, _, _, _, he⟩ |
      ⟨res, r, _, _, _, _, _, he⟩ | ⟨res, r, rr, _, _, _, _, _, _, he⟩ |
      ⟨res, r, rr, res2, _, _, _, _, _, _, _, he⟩ |
      ⟨res, r, rr, _, _, _, _, _, _, _, he⟩ <;> rw [he] <;>
      simp [isFetch, List.countP_cons, List.countP_nil]
  · intro res r rr res2 h1 h2 h3 hr h4 h5 h6 _
    rw [fetchWithAuth_eq_refresh_ok store o url opts res rr res2 r h1 h2 h3 hr h4 h5 h6]
    exact ⟨rfl, by simp [isFetch, List.countP_cons, List.countP_nil],
           by simp [navCount, List.countP_cons, List.countP_nil]⟩

/-- instantiation of the retry-bound theorem: the retry answers 401 again and
is surfaced as is after exactly 3 requests. -/
theorem fetchWithAuth_retry_bound_witness :
    (Response.mk 401 "again" "").status = 401 ∧
    ((fetchWithAuth ⟨some "old", some "r1"⟩
        ⟨FetchResult.resp ⟨401, "", ""⟩, FetchResult.resp ⟨200, "", "new"⟩,
         FetchResult.resp ⟨401, "again", ""⟩⟩
        "https://api/entries" ⟨none, [], none⟩).result
        = CallResult.ok ⟨401, "again", ""⟩ ∧
      (fetchWithAuth ⟨some "old", some "r1"⟩
        ⟨FetchResult.resp ⟨401, "", ""⟩, FetchResult.resp ⟨200, "", "new"⟩,
         FetchResult.resp ⟨401, "again", ""⟩⟩
        "https://api/entries" ⟨none, [], none⟩).events.countP isFetch = 3 ∧
      navCount (fetchWithAuth ⟨some "old", some "r1"⟩
        ⟨FetchResult.resp ⟨401, "", ""⟩, FetchResult.resp ⟨200, "", "new"⟩,
         FetchResult.resp ⟨401, "again", ""⟩⟩
        "https://api/entries" ⟨none, [], none⟩).events = 0) :=
  ⟨rfl,
   (fetchWithAuth_retry_bound ⟨some "old", some "r1"⟩
      ⟨FetchResult.resp ⟨401, "", ""⟩, FetchResult.resp ⟨200, "", "new"⟩,
       FetchResult.resp ⟨401, "again", ""⟩⟩
      "https://api/entries" ⟨none, [], none⟩).2
     ⟨401, "", ""⟩ "r1" ⟨200, "", "new"⟩ ⟨401, "again", ""⟩
     rfl rfl rfl (by decide) rfl (by decide) rfl rfl⟩

/-- C6 counterexample: initial 401, refresh credential `"r1"` stored, and the
refresh fetch rejecting at the transport level.  The awaited call rejects
(result is `thrown`, so it does not resolve with any response) and the
navigation callback fires zero times — unlike the non-ok-refresh-response
path, which navigates and resolves. -/
theorem fetchWithAuth_refresh_transport_cex :
    (fetchWithAuth ⟨some "old", some "r1"⟩
       ⟨FetchResult.resp ⟨401, "", ""⟩, FetchResult.reject, FetchResult.reject⟩
       "https://api/entries" ⟨none, [], none⟩).result = CallResult.thrown ∧
    navCount (fetchWithAuth ⟨some "old", some "r1"⟩
       ⟨FetchResult.resp ⟨401, "", ""⟩, FetchResult.reject, FetchResult.reject⟩
       "https://api/entries" ⟨none, [], none⟩).events = 0 := by
  decide

/-- C6 (amended): when the initial response is 401, a refresh credential is
present and the refresh fetch rejects at the transport level, the rejection
propagates to the caller (the awaited result throws instead of resolving),
the navigation callback is not invoked, and the credential store is left
unchanged. -/
theorem fetchWithAuth_refresh_transport_throws (store : Store) (o : Oracle)
    (url : String) (opts : FetchOptions) (res : Response) (r : String)
    (h1 : o.init = FetchResult.resp res) (h2 : res.status = 401)
    (h3 : store.refresh = some r) (hr : ¬ r = "")
    (h4 : o.refr = FetchResult.reject) :
    (fetchWithAuth store o url opts).result = CallResult.thrown ∧
    (fetchWithAuth store o url opts).store = store ∧
    (fetchWithAuth store o url opts).events =
      [Event.fetched (mkAuthedRequest url opts
         ("Bearer " ++ tokenString store.access)),
       Event.fetched (refreshReq r)] ∧
    navCount (fetchWithAuth store o url opts).events = 0 := by
  rw [fetchWithAuth_eq_refresh_reject store o url opts res r h1 h2 h3 hr h4]
  refine ⟨rfl, rfl, rfl, ?_⟩
  simp [navCount, List.countP_cons, List.countP_nil]

/-- instantiation of the amended transport-failure theorem at a concrete
call. -/
theorem fetchWithAuth_refresh_transport_throws_witness :
    (Response.mk 401 "" "").status = 401 ∧
    (Store.mk (some "old") (some "r1")).refresh = some "r1" ∧
    ¬ "r1" = "" ∧
    ((fetchWithAuth ⟨some "old", some "r1"⟩
        ⟨FetchResult.resp ⟨401, "", ""⟩, FetchResult.reject, FetchResult.reject⟩
        "https://api/summaries" ⟨none, [], none⟩).result = CallResult.thrown ∧
      (fetchWithAuth ⟨some "old", some "r1"⟩
        ⟨FetchResult.resp ⟨401, "", ""⟩, FetchResult.reject, FetchResult.reject⟩
        "https://api/summaries" ⟨none, [], none⟩).store = ⟨some "old", some "r1"⟩ ∧
      (fetchWithAuth ⟨some "old", some "r1"⟩
        ⟨FetchResult.resp ⟨401, "", ""⟩, FetchResult.reject, FetchResult.reject⟩
        "https://api/summaries" ⟨none, [], none⟩).events =
        [Event.fetched (mkAuthedRequest "https://api/summaries" ⟨none, [], none⟩
           ("Bearer " ++ tokenString (some "old"))),
         Event.fetched (refreshReq "r1")] ∧
      navCount (fetchWithAuth ⟨some "old", some "r1"⟩
        ⟨FetchResult.resp ⟨401, "", ""⟩, FetchResult.reject, FetchResult.reject⟩
        "https://api/summaries" ⟨none, [], none⟩).events = 0) :=
  ⟨rfl, rfl, by decide,
   fetchWithAuth_refresh_transport_throws ⟨some "old", some "r1"⟩
     ⟨FetchResult.resp ⟨401, "", ""⟩, FetchResult.reject, FetchResult.reject⟩
     "https://api/summaries" ⟨none, [], none⟩ ⟨401, "", ""⟩ "r1" rfl rfl rfl
     (by decide) rfl⟩

/-- the trace of every call starts with the initial authenticated request. -/
theorem fetchWithAuth_first_event (store : Store) (o : Oracle) (url : String)
    (opts : FetchOptions) :
    (fetchWithAuth store o url opts).events.head? =
      some (Event.fetched (mkAuthedRequest url opts
        ("Bearer " ++ tokenString store.access))) := by
  rcases fetchWithAuth_branches store o url opts with
    ⟨_, he⟩ | ⟨_, _, _, he⟩ | ⟨_, _, _, _, he⟩ | ⟨_, _, _, _, _, _, _, he⟩ |
    ⟨_, _, _, _, _, _, _, _, _, he⟩ | ⟨_, _, _, _, _, _, _, _, _, _, _, he⟩ |
    ⟨_, _, _, _, _, _, _, _, _, _, he⟩ <;> rw [he] <;> rfl

/-- C7: the issued request carries the client's `Authorization` value, every
caller-supplied header other than `Authorization` is kept with the caller's
value, and `Content-Type` defaults to `application/json` when the caller does
not override it. -/
theorem fetchWithAuth_header_merge (store : Store) (o : Oracle) (url : String)
    (opts : FetchOptions) (k v : String) :
    (fetchWithAuth store o url opts).events.head? =
      some (Event.fetched (mkAuthedRequest url opts
        ("Bearer " ++ tokenString store.access))) ∧
    headerVal (mkAuthedRequest url opts
        ("Bearer " ++ tokenString store.access)).headers "Authorization"
      = some ("Bearer " ++ tokenString store.access) ∧
    (¬ k = "Authorization" → lastVal opts.headers k = some v →
      headerVal (mkAuthedRequest url opts
        ("Bearer " ++ tokenString store.access)).headers k = some v) ∧
    (lastVal opts.headers "Content-Type" = none →
      headerVal (mkAuthedRequest url opts
          ("Bearer " ++ tokenString store.access)).headers "Content-Type"
        = some "application/json") := by
  refine ⟨fetchWithAuth_first_event store o url opts, ?_, ?_, ?_⟩
  · simp [mkAuthedRequest, headerVal_jsHeaders_auth]
  · intro hk hv
    simp [mkAuthedRequest, headerVal_jsHeaders_ne _ _ _ hk, hv]
  · intro h0
    have hk : ¬ "Content-Type" = "Authorization" := by decide
    simp [mkAuthedRequest, headerVal_jsHeaders_ne _ _ _ hk, h0, headerVal]

/-- instantiation of the header-merge theorem: a caller header `X-Trace` is
kept and `Content-Type` defaults to JSON. -/
theorem fetchWithAuth_header_merge_witness :
    ¬ "X-Trace" = "Authorization" ∧
    lastVal [("X-Trace", "1")] "X-Trace" = some "1" ∧
    lastVal [("X-Trace", "1")] "Content-Type" = none ∧
    headerVal (mkAuthedRequest "https://api/entries"
        ⟨some "POST", [("X-Trace", "1")], some "q"⟩
        ("Bearer " ++ tokenString (some "tok"))).headers "X-Trace" = some "1" ∧
    headerVal (mkAuthedRequest "https://api/entries"
        ⟨some "POST", [("X-Trace", "1")], some "q"⟩
        ("Bearer " ++ tokenString (some "tok"))).headers "Content-Type"
      = some "application/json" :=
  ⟨by decide, rfl, rfl,
   (fetchWithAuth_header_merge ⟨some "tok", none⟩
      ⟨FetchResult.resp ⟨200, "", ""⟩, FetchResult.reject, FetchResult.reject⟩
      "https://api/entries" ⟨some "POST", [("X-Trace", "1")], some "q"⟩
      "X-Trace" "1").2.2.1 (by decide) rfl,
   (fetchWithAuth_header_merge ⟨some "tok", none⟩
      ⟨FetchResult.resp ⟨200, "", ""⟩, FetchResult.reject, FetchResult.reject⟩
      "https://api/entries" ⟨some "POST", [("X-Trace", "1")], some "q"⟩
      "X-Trace" "1").2.2.2 rfl⟩

/-- C8: across all branches the `"refresh"` key is never written or deleted:
the stored refresh credential is unchanged, no `removeItem` occurs, at most
one store write occurs, and any `setItem` in the trace targets the
`"access"` key. -/
theorem fetchWithAuth_refresh_key_frame (store : Store) (o : Oracle)
    (url : String) (opts : FetchOptions) :
    (fetchWithAuth store o url opts).store.refresh = store.refresh ∧
    (fetchWithAuth store o url opts).events.countP isStoreWrite ≤ 1 ∧
    (∀ k, Event.removeItem k ∉ (fetchWithAuth store o url opts).events) ∧
    (∀ k v, Event.setItem k v ∈ (fetchWithAuth store o url opts).events →
      k = "access") := by
  rcases fetchWithAuth_branches store o url opts with
    ⟨_, he⟩ | ⟨_, _, _, he⟩ | ⟨_, _, _, _, he⟩ | ⟨_, _, _, _, _, _, _, he⟩ |
    ⟨_, _, _, _, _, _, _, _, _, he⟩ | ⟨_, _, _, _, _, _, _, _, _, _, _, he⟩ |
    ⟨_, _, _, _, _, _, _, _, _, _, he⟩ <;> rw [he] <;>
    refine ⟨rfl, by simp [isStoreWrite, List.countP_cons, List.countP_nil],
            by simp, ?_⟩ <;>
    · intro k v hv
      simp at hv
      try exact hv.1

/-- instantiation of the refresh-key frame theorem on the successful-refresh
path: the refresh credential survives and the single write targets
`"access"`. -/
theorem fetchWithAuth_refresh_key_frame_witness :
    (fetchWithAuth ⟨some "old", some "r1"⟩
        ⟨FetchResult.resp ⟨401, "", ""⟩, FetchResult.resp ⟨200, "", "new"⟩,
         FetchResult.resp ⟨200, "entry", ""⟩⟩
        "https://api/entries" ⟨none, [], none⟩).store.refresh
      = (Store.mk (some "old") (some "r1")).refresh ∧
    Event.setItem "access" "new" ∈
      (fetchWithAuth ⟨some "old", some "r1"⟩
        ⟨FetchResult.resp ⟨401, "", ""⟩, FetchResult.resp ⟨200, "", "new"⟩,
         FetchResult.resp ⟨200, "entry", ""⟩⟩
        "https://api/entries" ⟨none, [], none⟩).events ∧
    "access" = "access" :=
  ⟨(fetchWithAuth_refresh_key_frame ⟨some "old", some "r1"⟩
      ⟨FetchResult.resp ⟨401, "", ""⟩, FetchResult.resp ⟨200, "", "new"⟩,
       FetchResult.resp ⟨200, "entry", ""⟩⟩
      "https://api/entries" ⟨none, [], none⟩).1,
   by decide,
   (fetchWithAuth_refresh_key_frame ⟨some "old", some "r1"⟩
      ⟨FetchResult.resp ⟨401, "", ""⟩, FetchResult.resp ⟨200, "", "new"⟩,
       FetchResult.resp ⟨200, "entry", ""⟩⟩
      "https://api/entries" ⟨none, [], none⟩).2.2.2 "access" "new" (by decide)⟩

/-- C9 counterexample: a 401 whose refresh fetch rejects at the transport
level is a branch where no refresh succeeds, yet the navigation callback
fires zero times (the rejection propagates before `navigate` is reached) —
refuting the claim that it fires exactly once on every 401 branch without a
successful refresh. -/
theorem fetchWithAuth_navigate_otherwise_cex :
    navCount (fetchWithAuth ⟨some "tokA", some "r2"⟩
        ⟨FetchResult.resp ⟨401, "", ""⟩, FetchResult.reject, FetchResult.reject⟩
        "https://api/log-food" ⟨none, [], none⟩).events = 0 ∧
    ¬ navCount (fetchWithAuth ⟨some "tokA", some "r2"⟩
        ⟨FetchResult.resp ⟨401, "", ""⟩, FetchResult.reject, FetchResult.reject⟩
        "https://api/log-food" ⟨none, [], none⟩).events = 1 := by
  decide

/-- C9 (amended): the navigation callback fires at most once per call; it
fires zero times when the initial response is not a 401 and zero times when a
present refresh credential is exchanged through an ok refresh response,
exactly once when the 401 finds no refresh credential or the refresh
response is non-ok, and zero times — with the call throwing instead — when
the refresh fetch rejects at the transport level. -/
theorem fetchWithAuth_navigate_count (store : Store) (o : Oracle)
    (url : String) (opts : FetchOptions) :
    navCount (fetchWithAuth store o url opts).events ≤ 1 ∧
    (∀ res, o.init = FetchResult.resp res → ¬ res.status = 401 →
      navCount (fetchWithAuth store o url opts).events = 0) ∧
    (∀ res r rr, o.init = FetchResult.resp res → res.status = 401 →
      store.refresh = some r → ¬ r = "" → o.refr = FetchResult.resp rr →
      rr.ok = true →
      navCount (fetchWithAuth store o url opts).events = 0) ∧
    (∀ res, o.init = FetchResult.resp res → res.status = 401 →
      store.refresh = none →
      navCount (fetchWithAuth store o url opts).events = 1) ∧
    (∀ res r rr, o.init = FetchResult.resp res → res.status = 401 →
      store.refresh = some r → ¬ r = "" → o.refr = FetchResult.resp rr →
      rr.ok = false →
      navCount (fetchWithAuth store o url opts).events = 1) ∧
    (∀ res r, o.init = FetchResult.resp res → res.status = 401 →
      store.refresh = some r → ¬ r = "" → o.refr = FetchResult.reject →
      navCount (fetchWithAuth store o url opts).events = 0 ∧
      (fetchWithAuth store o url opts).result = CallResult.thrown) := by
  refine ⟨?_, ?_, ?_, ?_, ?_, ?_⟩
  · rcases fetchWithAuth_branches store o url opts with
      ⟨_, he⟩ | ⟨_, _, _, he⟩ | ⟨_, _, _, _, he⟩ | ⟨_, _, _, _, _, _, _, he⟩ |
      ⟨_, _, _, _, _, _, _, _, _, he⟩ | ⟨_, _, _, _, _, _, _, _, _, _, _, he⟩ |
      ⟨_, _, _, _, _, _, _, _, _, _, he⟩ <;> rw [he] <;>
      simp [navCount, List.countP_cons, List.countP_nil]
  · intro res h1 h2
    rw [fetchWithAuth_eq_non401 store o url opts res h1 h2]
    simp [navCount, List.countP_cons, List.countP_nil]
  · intro res r rr h1 h2 h3 hr h4 h5
    cases h6 : o.retry with
    | resp res2 =>
      rw [fetchWithAuth_eq_refresh_ok store o url opts res rr res2 r h1 h2 h3 hr h4 h5 h6]
      simp [navCount, List.countP_cons, List.countP_nil]
    | reject =>
      rw [fetchWithAuth_eq_retry_reject store o url opts res rr r h1 h2 h3 hr h4 h5 h6]
      simp [navCount, List.countP_cons, List.countP_nil]
  · intro res h1 h2 h3
    rw [fetchWithAuth_eq_401_norefresh store o url opts res h1 h2 h3]
    simp [navCount, List.countP_cons, List.countP_nil]
  · intro res r rr h1 h2 h3 hr h4 h5
    rw [fetchWithAuth_eq_refresh_nonok store o url opts res rr r h1 h2 h3 hr h4 h5]
    simp [navCount, List.countP_cons, List.countP_nil]
  · intro res r h1 h2 h3 hr h4
    rw [fetchWithAuth_eq_refresh_reject store o url opts res r h1 h2 h3 hr h4]
    exact ⟨by simp [navCount, List.countP_cons, List.countP_nil], rfl⟩

/-- instantiation of the navigation-count theorem on the failed-refresh path
(exactly one navigation) and on the transport-rejected refresh path (zero
navigations, call throws). -/
theorem fetchWithAuth_navigate_count_witness :
    navCount (fetchWithAuth ⟨some "old", some "r1"⟩
        ⟨FetchResult.resp ⟨401, "", ""⟩, FetchResult.resp ⟨400, "bad", ""⟩,
         FetchResult.reject⟩
        "https://api/entries" ⟨none, [], none⟩).events ≤ 1 ∧
    (Response.mk 400 "bad" "").ok = false ∧
    navCount (fetchWithAuth ⟨some "old", some "r1"⟩
        ⟨FetchResult.resp ⟨401, "", ""⟩, FetchResult.resp ⟨400, "bad", ""⟩,
         FetchResult.reject⟩
        "https://api/entries" ⟨none, [], none⟩).events = 1 ∧
    (navCount (fetchWithAuth ⟨some "old", some "r1"⟩
        ⟨FetchResult.resp ⟨401, "", ""⟩, FetchResult.reject, FetchResult.reject⟩
        "https://api/entries" ⟨none, [], none⟩).events = 0 ∧
      (fetchWithAuth ⟨some "old", some "r1"⟩
        ⟨FetchResult.resp ⟨401, "", ""⟩, FetchResult.reject, FetchResult.reject⟩
        "https://api/entries" ⟨none, [], none⟩).result = CallResult.thrown) :=
  ⟨(fetchWithAuth_navigate_count ⟨some "old", some "r1"⟩
      ⟨FetchResult.resp ⟨401, "", ""⟩, FetchResult.resp ⟨400, "bad", ""⟩,
       FetchResult.reject⟩
      "https://api/entries" ⟨none, [], none⟩).1,
   by decide,
   (fetchWithAuth_navigate_count ⟨some "old", some "r1"⟩
      ⟨FetchResult.resp ⟨401, "", ""⟩, FetchResult.resp ⟨400, "bad", ""⟩,
       FetchResult.reject⟩
      "https://api/entries" ⟨none, [], none⟩).2.2.2.2.1 ⟨401, "", ""⟩ "r1"
     ⟨400, "bad", ""⟩ rfl rfl rfl (by decide) rfl (by decide),
   (fetchWithAuth_navigate_count ⟨some "old", some "r1"⟩
      ⟨FetchResult.resp ⟨401, "", ""⟩, FetchResult.reject, FetchResult.reject⟩
      "https://api/entries" ⟨none, [], none⟩).2.2.2.2.2 ⟨401, "", ""⟩ "r1"
     rfl rfl rfl (by decide) rfl⟩

/-- C10: with no stored access credential the initial request is still issued
and carries the literal header value `Bearer null` (the absent token rendered
by the template literal), whereas the axios interceptor of `api/axios.jsx`
omits the `Authorization` header entirely in that situation. -/
theorem fetchWithAuth_absent_access_sentinel (store : Store) (o : Oracle)
    (url : String) (opts : FetchOptions) (h : store.access = none) :
    (fetchWithAuth store o url opts).events.head? =
      some (Event.fetched (mkAuthedRequest url opts "Bearer null")) ∧
    headerVal (mkAuthedRequest url opts "Bearer null").headers "Authorization"
      = some "Bearer null" ∧
    (∀ hs : List (String × String), axiosAuthInterceptor none hs = hs) := by
  refine ⟨?_, ?_, fun hs => rfl⟩
  · have hfst := fetchWithAuth_first_event store o url opts
    rw [h] at hfst
    exact hfst
  · have := headerVal_jsHeaders_auth opts.headers "Bearer null"
    simpa [mkAuthedRequest] using this

/-- instantiation of the absent-access-token theorem at a concrete call. -/
theorem fetchWithAuth_absent_access_sentinel_witness :
    (Store.mk none (some "r1")).access = none ∧
    ((fetchWithAuth ⟨none, some "r1"⟩
        ⟨FetchResult.resp ⟨401, "", ""⟩, FetchResult.resp ⟨200, "", "new"⟩,
         FetchResult.resp ⟨200, "", ""⟩⟩
        "https://api/entries" ⟨none, [], none⟩).events.head? =
        some (Event.fetched (mkAuthedRequest "https://api/entries"
          ⟨none, [], none⟩ "Bearer null")) ∧
      headerVal (mkAuthedRequest "https://api/entries" ⟨none, [], none⟩
          "Bearer null").headers "Authorization" = some "Bearer null" ∧
      (∀ hs : List (String × String), axiosAuthInterceptor none hs = hs)) :=
  ⟨rfl,
   fetchWithAuth_absent_access_sentinel ⟨none, some "r1"⟩
     ⟨FetchResult.resp ⟨401, "", ""⟩, FetchResult.resp ⟨200, "", "new"⟩,
      FetchResult.resp ⟨200, "", ""⟩⟩
     "https://api/entries" ⟨none, [], none⟩ rfl⟩

end MacroTracker
